import Mathlib

/-!
Verification of the entity-resolution and response-normalization layer of
the `mcp-telegram` repository (files `utils.py`, `types.py`, `telegram.py`,
`server.py`), via a shallow embedding in Lean.

Modelling conventions:
* Python `int` is embedded as `Int` (unbounded, like Python's).
* Python `str` is embedded as `String`; the embedding covers ASCII strings
  (Python's `str.isdigit` and `re`'s `\d` also accept non-ASCII Unicode
  decimal digits, which `int()` parses identically, so the restriction to
  ASCII does not change any claim below).
* `None`-able values are embedded as `Option`.
* Code that can raise is embedded as `Except String _` (the string names
  the exception).
* The Telethon client library is an external collaborator: its calls are
  embedded as explicit parameters (message streams, resolver functions),
  and the documented semantics of `telethon.tl.custom.Dialog`'s
  `is_user`/`is_group` flags are embedded as functions of a tagged entity
  type.
-/

/-! ## utils.py: parse_entity -/

/-- Embedding of Python `s.lstrip("-")`: removes every leading `'-'`. -/
def pyLstripMinus (s : String) : String :=
  String.mk (s.data.dropWhile (fun c => c = '-'))

/-- Embedding of Python `s.isdigit()` on ASCII strings: true iff the string
is non-empty and every character is a decimal digit. -/
def pyIsdigit (s : String) : Bool :=
  !s.data.isEmpty && s.data.all (fun c => c.isDigit)

/-- Numeric value of a list of decimal digit characters. -/
def digitsVal (cs : List Char) : Int :=
  cs.foldl (fun a c => a * 10 + ((c.toNat : Int) - 48)) 0

/-- Embedding of Python `int(s)` on the string shapes reachable in this
code base: an optional single sign `'-'`/`'+'` followed by one or more
decimal digits parses to the signed value; anything else raises
`ValueError` (`none` here). Python's tolerance for surrounding whitespace
and inner underscores is not exercised by any call site modelled below. -/
def pyIntChars (cs : List Char) : Option Int :=
  match cs with
  | [] => none
  | c :: rest =>
      if c = '-' then
        if !rest.isEmpty && rest.all (fun x => x.isDigit) then
          some (-(digitsVal rest))
        else none
      else if c = '+' then
        if !rest.isEmpty && rest.all (fun x => x.isDigit) then
          some (digitsVal rest)
        else none
      else
        if (c :: rest).all (fun x => x.isDigit) then
          some (digitsVal (c :: rest))
        else none

/-- Embedding of Python `int(s)`. -/
def pyInt (s : String) : Option Int :=
  pyIntChars s.data

/-- Embedding of `utils.parse_entity`:
`return int(entity) if entity.lstrip("-").isdigit() else entity`.
The `int(entity)` call can raise `ValueError`, which this embedding
surfaces as `Except.error`. -/
def parse_entity (entity : String) : Except String (Int ⊕ String) :=
  if pyIsdigit (pyLstripMinus entity) then
    match pyInt entity with
    | some n => Except.ok (Sum.inl n)
    | none => Except.error "ValueError"
  else
    Except.ok (Sum.inr entity)

/-! ## types.py: Contact, DialogType, Dialog, Media, Message, Messages -/

/-- Embedding of `types.Contact` (pydantic model, all fields optional
except `id`). -/
structure Contact where
  id : Int
  first_name : Option String := none
  last_name : Option String := none
  username : Option String := none
  phone : Option String := none
deriving DecidableEq, Repr

/-- Embedding of `types.DialogType`. -/
inductive DialogType where
  | USER
  | GROUP
  | CHANNEL
  | BOT
deriving DecidableEq, Repr

/-- Tagged embedding of the three Telethon entity shapes that
`Dialog.from_custom_dialog` accepts (its `assert` restricts
`dialog.entity` to `types.User`, `types.Chat`, `types.Channel`).
Only the fields the modelled code reads are carried: `User.bot`,
`User.username`, `User.phone`, `Channel.megagroup`, `Channel.username`. -/
inductive TLEntity where
  | user (bot : Bool) (username : Option String) (phone : Option String)
  | chat
  | channel (megagroup : Bool) (username : Option String)
deriving DecidableEq, Repr

/-- External contract of `telethon.tl.custom.Dialog.is_user`:
the entity is a `types.User`. -/
def TLEntity.is_user : TLEntity → Bool
  | .user _ _ _ => true
  | _ => false

/-- External contract of `telethon.tl.custom.Dialog.is_group`:
the entity is a basic group (`types.Chat`) or a `types.Channel` whose
`megagroup` flag is set. -/
def TLEntity.is_group : TLEntity → Bool
  | .chat => true
  | .channel megagroup _ => megagroup
  | _ => false

/-- Embedding of the `telethon.tl.custom.Dialog` values consumed by
`Dialog.from_custom_dialog`: the library-computed `id`, display `name` and
`unread_count` together with the underlying entity. -/
structure CustomDialog where
  id : Int
  name : String
  unread_count : Nat
  entity : TLEntity
deriving DecidableEq, Repr

/-- Embedding of `types.Dialog` (pydantic model). -/
structure Dialog where
  id : Int
  title : String
  username : Option String := none
  phone_number : Option String := none
  type : DialogType
  unread_messages_count : Nat
deriving DecidableEq, Repr

namespace Dialog

/-- Embedding of `types.Dialog.from_custom_dialog`. The two `assert`
statements of the source hold by construction of `CustomDialog`. -/
def from_custom_dialog (dialog : CustomDialog) : Dialog :=
  let dialog_type : DialogType :=
    if dialog.entity.is_user then
      match dialog.entity with
      | .user bot _ _ => if bot then DialogType.BOT else DialogType.USER
      | _ => DialogType.USER
    else if dialog.entity.is_group then DialogType.GROUP
    else DialogType.CHANNEL
  let username : Option String :=
    match dialog.entity with
    | .user _ u _ => u
    | .channel _ u => u
    | .chat => none
  let phone_number : Option String :=
    match dialog.entity with
    | .user _ _ p => p
    | _ => none
  { id := dialog.id
    title := dialog.name
    type := dialog_type
    username := username
    phone_number := phone_number
    unread_messages_count := dialog.unread_count }

end Dialog

/-- Embedding of `types.Media`. -/
structure Media where
  media_id : Int
  mime_type : Option String := none
  file_name : Option String := none
  file_size : Option Int := none
deriving DecidableEq, Repr

/-- Embedding of the `message.file` descriptor Telethon attaches to a
message with downloadable media. -/
structure PyFile where
  name : Option String
  mime_type : Option String
  size : Option Int
deriving DecidableEq, Repr

/-- Embedding of the fields of `telethon.tl.patched.Message` read by the
modelled code: `id`, `date` (a UTC timestamp, `none` for undated service
updates), `from_id` (already reduced to the peer's numeric marker),
`text`, `out`, the truthiness of `message.media`, the `file` descriptor,
and the photo or document specific ids when present. -/
structure PyMessage where
  id : Int
  date : Option Int
  from_id : Option Int
  text : Option String
  out : Bool
  hasMedia : Bool
  file : Option PyFile
  photo_id : Option Int
  document_id : Option Int
deriving DecidableEq, Repr

namespace Media

/-- Embedding of `types.Media.from_message`: a `Media` record is produced
iff the message carries both a media payload and a file descriptor;
`media_id` prefers the photo id, then the document id, then the message's
own id. -/
def from_message (message : PyMessage) : Option Media :=
  if message.hasMedia then
    match message.file with
    | some f =>
        let media_id : Int :=
          match message.photo_id with
          | some pid => pid
          | none =>
            match message.document_id with
            | some did => did
            | none => message.id
        some { media_id := media_id
               mime_type := f.mime_type
               file_name := f.name
               file_size := f.size }
    | none => none
  else none

end Media

/-- Embedding of `types.Message`. -/
structure Message where
  message_id : Int
  sender_id : Option Int := none
  message : Option String := none
  outgoing : Bool
  date : Option Int := none
  media : Option Media := none
deriving DecidableEq, Repr

/-- Embedding of `types.Messages`. -/
structure Messages where
  messages : List Message
  dialog : Option Dialog := none
deriving DecidableEq, Repr

/-! ## String helpers used by telegram.py -/

/-- Boolean prefix test on character lists. -/
def prefixL : List Char → List Char → Bool
  | [], _ => true
  | _ :: _, [] => false
  | a :: as, b :: bs => a = b && prefixL as bs

/-- Boolean substring test on character lists (embedding of Python's
`x in y` on strings). -/
def substrL (needle : List Char) : List Char → Bool
  | [] => needle.isEmpty
  | c :: rest => prefixL needle (c :: rest) || substrL needle rest

/-- Embedding of Python `s.lower()` on ASCII strings. -/
def pyLower (s : String) : String :=
  String.mk (s.data.map Char.toLower)

/-- Embedding of Python `x in y` on strings. -/
def pyIn (needle haystack : String) : Bool :=
  substrL needle.data haystack.data

/-! ## telegram.py: Telegram.search_contacts -/

/-- Embedding of the fields of `telethon.tl.types.User` read by the
modelled code. The `contact_users` list passed to `search_contacts`
below is the source's intersection of `contacts.users` with the saved
contact-id set, which the external client supplies. -/
structure PyUser where
  id : Int
  first_name : Option String := none
  last_name : Option String := none
  username : Option String := none
  phone : Option String := none
deriving DecidableEq, Repr

/-- The `Contact(...)` constructor call of `search_contacts`. -/
def Contact.ofUser (u : PyUser) : Contact :=
  { id := u.id
    first_name := u.first_name
    last_name := u.last_name
    username := u.username
    phone := u.phone }

/-- Embedding of one conjunct of the source's match expression, e.g.
`user.first_name and lower_query in user.first_name.lower()`:
Python truthiness makes a `None` or empty-string field short-circuit the
conjunct to a falsy value. -/
def pyFieldMatch (lower_query : String) (field : Option String) : Bool :=
  match field with
  | none => false
  | some s => if s = "" then false else pyIn lower_query (pyLower s)

namespace Telegram

/-- Embedding of `Telegram.search_contacts`, parameterized by the
`contact_users` list obtained from the external client. The source's
append loop over matches is rendered as `filter` followed by `map`.
`if not query` in the source is true for both `None` and `""`. -/
def search_contacts (contact_users : List PyUser) (query : Option String) :
    List Contact :=
  match query with
  | none => contact_users.map Contact.ofUser
  | some q =>
      if q = "" then contact_users.map Contact.ofUser
      else
        let lower_query := pyLower q
        (contact_users.filter (fun user =>
          pyFieldMatch lower_query user.first_name ||
          pyFieldMatch lower_query user.last_name ||
          pyFieldMatch lower_query user.username ||
          pyFieldMatch lower_query user.phone)).map Contact.ofUser

/-- The username the `search_dialogs` loop reads off the dialog's entity
(`dialog.entity.username` when the entity is a `User` or `Channel`). -/
def dialogUsername : TLEntity → Option String
  | .user _ u _ => u
  | .channel _ u => u
  | .chat => none

/-- Embedding of `Telegram.search_dialogs`, parameterized by the dialog
list the external client's `iter_dialogs` yields. Note the source
function takes no limit argument and applies no truncation. -/
def search_dialogs (dialogs : List CustomDialog) (query : String) :
    List Dialog :=
  (dialogs.filter (fun dialog =>
    if query = "" then true
    else
      pyIn (pyLower query) (pyLower dialog.name) ||
      pyFieldMatch (pyLower query) (dialogUsername dialog.entity))).map
    Dialog.from_custom_dialog

end Telegram

/-! ## telegram.py: Telegram.get_messages -/

/-- The `Message(...)` record the `get_messages` loop appends for one
fetched message. `resolve` embeds the external `client.get_peer_id`
call on `message.from_id`; its `try/except` (sender resolution is
best-effort) is the `none` outcome. The source's
`message.text if isinstance(message.text, str) else None` is the `text`
field of the embedding. -/
def toMessage (resolve : Int → Option Int) (m : PyMessage) : Message :=
  { message_id := m.id
    sender_id :=
      match m.from_id with
      | none => none
      | some fid => resolve fid
    message := m.text
    outgoing := m.out
    date := m.date
    media := Media.from_message m }

/-- Embedding of the `async for message in self.client.iter_messages(...)`
loop body of `Telegram.get_messages`, in source order: a message with no
date is skipped; a message dated strictly before `start_date` breaks the
loop; a full result list breaks the loop; otherwise the message is
appended. The `mark_as_read` branch is a best-effort external side effect
with no influence on the returned value and is not modelled. -/
def collectLoop (resolve : Int → Option Int) (stream : List PyMessage)
    (limit : Nat) (start_date : Int) : List Message :=
  match stream with
  | [] => []
  | m :: rest =>
      match m.date with
      | none => collectLoop resolve rest limit start_date
      | some d =>
          if d < start_date then []
          else
            match limit with
            | 0 => []
            | Nat.succ k => toMessage resolve m :: collectLoop resolve rest k start_date

namespace Telegram

/-- Embedding of `Telegram.get_messages`. `dialog` is the result of the
`_get_dialog` lookup; `stream` is the message sequence the external
client's `iter_messages(peer_id, offset_date=end_date)` yields
(newest-first, strictly older than `end_date` — an external contract).
The boolean of the result records whether that message fetch was
performed at all. `if not dialog` in the source is `dialog is None`,
pydantic model instances being always truthy. -/
def get_messages (resolve : Int → Option Int) (dialog : Option Dialog)
    (stream : List PyMessage) (limit : Nat) (start_date : Int)
    (unread : Bool) : Messages × Bool :=
  if unread then
    match dialog with
    | none => ({ messages := [], dialog := none }, false)
    | some dlg =>
        if dlg.unread_messages_count = 0 then
          ({ messages := [], dialog := some dlg }, false)
        else
          ({ messages := collectLoop resolve stream
               (min limit dlg.unread_messages_count) start_date
             dialog := some dlg }, true)
  else
    ({ messages := collectLoop resolve stream limit start_date
       dialog := dialog }, true)

end Telegram

/-! ## server.py: call binding of the tool entry points

The tool functions in `server.py` call the `Telegram` wrapper's methods.
Python binds a call's arguments to the callee's parameter list and raises
`TypeError` when there are more positional arguments than parameters or
when a keyword argument does not name a free parameter. -/

/-- Whether a Python call with `numPositional` positional arguments and
the keyword arguments `keywords` binds against a callee whose parameter
names (after `self`) are `params`. -/
def pyCallBinds (params : List String) (numPositional : Nat)
    (keywords : List String) : Bool :=
  decide (numPositional ≤ params.length) &&
    keywords.all (fun k => (params.drop numPositional).contains k)

/-- Parameter names of `Telegram.send_message(self, entity, message)`. -/
def Telegram_send_message_params : List String := ["entity", "message"]

/-- The call `tg.send_message(_entity, message, file_path=file_path,
reply_to=reply_to)` issued by the `send_message` tool in `server.py`:
two positional arguments plus these keyword arguments. -/
def server_send_message_keywords : List String := ["file_path", "reply_to"]

/-- Parameter names of `Telegram.search_dialogs(self, query)`. -/
def Telegram_search_dialogs_params : List String := ["query"]

/-- The call `tg.search_dialogs(query, limit)` issued by the
`search_dialogs` tool in `server.py` passes two positional arguments. -/
def server_search_dialogs_numPositional : Nat := 2

/-! ## utils.py: parse_telegram_url

The source matches the regex
`(?:https?://)?t(?:elegram)?\.me/c/(\d+)/(\d+)` against the URL with
`re.match` (anchored at the start of the input only; the end is
unanchored, so trailing characters are ignored). -/

/-- Strips `pat` as a literal prefix of `cs`, returning the remainder. -/
def tryStrip (pat : List Char) (cs : List Char) : Option (List Char) :=
  match pat, cs with
  | [], rest => some rest
  | _ :: _, [] => none
  | p :: ps, c :: rest => if c = p then tryStrip ps rest else none

/-- The optional scheme group `(?:https?://)?`: consume `https://` or
`http://` when present, otherwise match empty. If the group consumed
input, regex backtracking into it cannot produce another overall match,
because the rest of the pattern then requires a leading `'t'` while the
consumed input began with `'h'`. -/
def stripScheme (cs : List Char) : List Char :=
  match tryStrip "https://".data cs with
  | some r => r
  | none =>
      match tryStrip "http://".data cs with
      | some r => r
      | none => cs

/-- The capture groups `(\d+)/(\d+)` at the end of the pattern: a maximal
non-empty digit run, a literal `'/'`, and a second maximal non-empty digit
run; input after the second run is ignored (`re.match` does not anchor the
end). Regex backtracking into a digit run cannot produce another overall
match because the character required after the first run, `'/'`, is not a
digit. -/
def twoDigitGroups (cs : List Char) : Option (List Char × List Char) :=
  if (cs.takeWhile Char.isDigit).isEmpty then none
  else
    match cs.dropWhile Char.isDigit with
    | [] => none
    | c :: cs4 =>
        if c = '/' then
          if (cs4.takeWhile Char.isDigit).isEmpty then none
          else some (cs.takeWhile Char.isDigit, cs4.takeWhile Char.isDigit)
        else none

/-- The whole regex match: scheme group, then `t(?:elegram)?\.me/c/` —
rendered greedily as the alternative `telegram.me/c/` first and `t.me/c/`
second; when `elegram` follows the `'t'`, the group-skipped alternative
fails at `\.` against `'e'`, so trying the long form first is faithful —
then the two digit groups. -/
def matchURL (cs : List Char) : Option (List Char × List Char) :=
  match
    (match tryStrip "telegram.me/c/".data (stripScheme cs) with
     | some r => some r
     | none => tryStrip "t.me/c/".data (stripScheme cs)) with
  | none => none
  | some cs2 => twoDigitGroups cs2

/-- Embedding of `utils.parse_telegram_url`: on a regex match, the first
group goes through `parse_entity` and the second through `int()`, with the
surrounding `try/except` turning any exception into `None`. -/
def parse_telegram_url (url : String) :
    Option ((Int ⊕ String) × Int) :=
  match matchURL url.data with
  | none => none
  | some (g1, g2) =>
      match parse_entity (String.mk g1), pyInt (String.mk g2) with
      | Except.ok e, some mid => some (e, mid)
      | _, _ => none

/-- Numeric value of a list of decimal digit characters, as a natural
number. -/
def natDigitsVal (cs : List Char) : Nat :=
  cs.foldl (fun a c => a * 10 + (c.toNat - 48)) 0

/-- Definition following the words of the amended specification of the
deep-link parser, for comparison with the source embedding
`parse_telegram_url`: a link is recognized iff it consists of an optional
`https://` or `http://` scheme, a host `telegram.me` or `t.me`, the
literal `/c/`, a non-empty channel-id digit run, `/`, and a non-empty
message-id digit run, any further characters being ignored; the channel
id is passed through the entity resolver and the message id is parsed as
a non-negative integer; every other link shape is not recognized. -/
def parse_link_spec (url : String) :
    Option ((Int ⊕ String) × Int) :=
  let cs1 := stripScheme url.data
  let host : Option (List Char) :=
    match tryStrip "telegram.me".data cs1 with
    | some r => some r
    | none => tryStrip "t.me".data cs1
  match host.bind (tryStrip "/c/".data) with
  | none => none
  | some cs2 =>
      match twoDigitGroups cs2 with
      | none => none
      | some (g1, g2) =>
          match parse_entity (String.mk g1) with
          | Except.ok e => some (e, (natDigitsVal g2 : Int))
          | Except.error _ => none


/-- Definition following the words of the specification of contact
filtering, for comparison with `Telegram.search_contacts`: a present field
matches iff the lower-cased query is a substring of the lower-cased field;
an absent field is skipped, never a match failure. -/
def contactFieldHas (query : String) (field : Option String) : Bool :=
  match field with
  | none => false
  | some s => pyIn (pyLower query) (pyLower s)

/-- Definition following the words of the specification of contact
filtering: a contact matches a non-empty query iff at least one of its
present fields among first name, last name, username and phone contains
the query case-insensitively. -/
def contactMatchesSpec (query : String) (u : PyUser) : Bool :=
  contactFieldHas query u.first_name ||
  contactFieldHas query u.last_name ||
  contactFieldHas query u.username ||
  contactFieldHas query u.phone

/-! ## Helper lemmas -/

theorem tryStrip_append (p q cs : List Char) :
    tryStrip (p ++ q) cs = (tryStrip p cs).bind (tryStrip q) := by
  induction p generalizing cs with
  | nil => simp [tryStrip]
  | cons a as ih =>
      cases cs with
      | nil => simp [tryStrip]
      | cons c rest =>
          simp only [List.cons_append, tryStrip]
          by_cases h : c = a
          · simp [h, ih]
          · simp [h]

theorem tryStrip_eq_some {p cs r : List Char} (h : tryStrip p cs = some r) :
    cs = p ++ r := by
  induction p generalizing cs with
  | nil => simpa [tryStrip] using h
  | cons a as ih =>
      cases cs with
      | nil => simp [tryStrip] at h
      | cons c rest =>
          simp only [tryStrip] at h
          by_cases hc : c = a
          · rw [if_pos hc] at h
            simp [hc, ih h]
          · rw [if_neg hc] at h
            exact absurd h (by simp)

theorem tryStrip_self_append (p rest : List Char) :
    tryStrip p (p ++ rest) = some rest := by
  induction p with
  | nil => simp [tryStrip]
  | cons a as ih => simp [tryStrip, ih]

theorem takeWhile_all_append (p : Char → Bool) (xs : List Char) (y : Char)
    (ys : List Char) (hxs : ∀ c ∈ xs, p c = true) (hy : p y = false) :
    (xs ++ y :: ys).takeWhile p = xs := by
  induction xs with
  | nil => simp [List.takeWhile, hy]
  | cons a as ih =>
      simp only [List.cons_append, List.takeWhile_cons,
        hxs a (by simp), if_true]
      simp [ih (fun c hc => hxs c (by simp [hc]))]

theorem dropWhile_all_append (p : Char → Bool) (xs : List Char) (y : Char)
    (ys : List Char) (hxs : ∀ c ∈ xs, p c = true) (hy : p y = false) :
    (xs ++ y :: ys).dropWhile p = y :: ys := by
  induction xs with
  | nil => simp [List.dropWhile, hy]
  | cons a as ih =>
      simp only [List.cons_append, List.dropWhile_cons,
        hxs a (by simp), if_true]
      exact ih (fun c hc => hxs c (by simp [hc]))

theorem char_digit_ge48 (c : Char) (h : c.isDigit = true) : 48 ≤ c.toNat := by
  simp only [Char.isDigit, Bool.and_eq_true, decide_eq_true_eq] at h
  exact h.1

theorem char_digit_ne_minus (c : Char) (h : c.isDigit = true) : c ≠ '-' := by
  intro hc; subst hc; simp [Char.isDigit] at h

theorem char_digit_ne_plus (c : Char) (h : c.isDigit = true) : c ≠ '+' := by
  intro hc; subst hc; simp [Char.isDigit] at h

theorem digitsVal_foldl_cast (cs : List Char) (a : Nat)
    (h : ∀ c ∈ cs, c.isDigit = true) :
    List.foldl (fun x c => x * 10 + ((c.toNat : Int) - 48)) (a : Int) cs =
      ((List.foldl (fun x c => x * 10 + (c.toNat - 48)) a cs : Nat) : Int) := by
  induction cs generalizing a with
  | nil => simp
  | cons c rest ih =>
      simp only [List.foldl_cons]
      have h48 := char_digit_ge48 c (h c (by simp))
      have hstep : (a : Int) * 10 + ((c.toNat : Int) - 48) =
          ((a * 10 + (c.toNat - 48) : Nat) : Int) := by
        push_cast [Nat.cast_sub h48]
        ring
      rw [hstep]
      exact ih _ (fun x hx => h x (by simp [hx]))

theorem digitsVal_cast (cs : List Char) (h : ∀ c ∈ cs, c.isDigit = true) :
    digitsVal cs = (natDigitsVal cs : Int) := by
  simpa [digitsVal, natDigitsVal] using digitsVal_foldl_cast cs 0 h

theorem pyIntChars_digits (cs : List Char) (hne : cs ≠ [])
    (h : ∀ c ∈ cs, c.isDigit = true) :
    pyIntChars cs = some (digitsVal cs) := by
  cases cs with
  | nil => exact absurd rfl hne
  | cons c rest =>
      have hc := h c (by simp)
      simp only [pyIntChars]
      rw [if_neg (char_digit_ne_minus c hc), if_neg (char_digit_ne_plus c hc),
        if_pos (by simpa [List.all_eq_true] using h)]

theorem pyInt_digits (cs : List Char) (hne : cs ≠ [])
    (h : ∀ c ∈ cs, c.isDigit = true) :
    pyInt (String.mk cs) = some (digitsVal cs) :=
  pyIntChars_digits cs hne h

theorem parse_entity_digits (cs : List Char) (hne : cs ≠ [])
    (h : ∀ c ∈ cs, c.isDigit = true) :
    parse_entity (String.mk cs) = Except.ok (Sum.inl (digitsVal cs)) := by
  cases cs with
  | nil => exact absurd rfl hne
  | cons c rest =>
      have hc := h c (by simp)
      have hdrop : (c :: rest).dropWhile (fun x => x = '-') = c :: rest := by
        simp [List.dropWhile_cons, char_digit_ne_minus c hc]
      have hdig : pyIsdigit (pyLstripMinus (String.mk (c :: rest))) = true := by
        simp only [pyLstripMinus, pyIsdigit, hdrop]
        simpa [List.all_eq_true] using h
      simp only [parse_entity, hdig, if_true,
        pyInt_digits (c :: rest) hne h]

theorem twoDigitGroups_eq_some {cs g1 g2 : List Char}
    (h : twoDigitGroups cs = some (g1, g2)) :
    g1 ≠ [] ∧ (∀ c ∈ g1, c.isDigit = true) ∧
    g2 ≠ [] ∧ (∀ c ∈ g2, c.isDigit = true) := by
  simp only [twoDigitGroups] at h
  by_cases h1 : (cs.takeWhile Char.isDigit).isEmpty
  · rw [if_pos h1] at h; exact absurd h (by simp)
  · rw [if_neg h1] at h
    rcases hrest : cs.dropWhile Char.isDigit with _ | ⟨c, cs4⟩ <;> rw [hrest] at h
    · simp at h
    · dsimp only at h
      by_cases hcSlash : c = '/'
      · rw [if_pos hcSlash] at h
        by_cases h2 : (cs4.takeWhile Char.isDigit).isEmpty
        · rw [if_pos h2] at h; exact absurd h (by simp)
        · rw [if_neg h2] at h
          have hpair : cs.takeWhile Char.isDigit = g1 ∧
              cs4.takeWhile Char.isDigit = g2 := by
            have := Option.some.inj h
            exact ⟨congrArg Prod.fst this, congrArg Prod.snd this⟩
          refine ⟨?_, ?_, ?_, ?_⟩
          · rw [← hpair.1]; simpa [List.isEmpty_iff] using h1
          · intro x hx; rw [← hpair.1] at hx; exact List.mem_takeWhile_imp hx
          · rw [← hpair.2]; simpa [List.isEmpty_iff] using h2
          · intro x hx; rw [← hpair.2] at hx; exact List.mem_takeWhile_imp hx
      · rw [if_neg hcSlash] at h; exact absurd h (by simp)

theorem host_align (cs1 : List Char) :
    (match tryStrip "telegram.me/c/".data cs1 with
     | some r => some r
     | none => tryStrip "t.me/c/".data cs1) =
    (match tryStrip "telegram.me".data cs1 with
     | some r => some r
     | none => tryStrip "t.me".data cs1).bind (tryStrip "/c/".data) := by
  have hA : "telegram.me/c/".data = "telegram.me".data ++ "/c/".data := rfl
  have hB : "t.me/c/".data = "t.me".data ++ "/c/".data := rfl
  rw [hA, hB, tryStrip_append, tryStrip_append]
  cases htel : tryStrip "telegram.me".data cs1 with
  | some r =>
      have htme : tryStrip "t.me".data cs1 = none := by
        rw [tryStrip_eq_some htel]
        rfl
      cases hfr : tryStrip "/c/".data r with
      | some x => simp [htel, hfr]
      | none => simp [htel, hfr, htme]
  | none => simp [htel]

theorem parse_url_refines (url : String) :
    parse_telegram_url url = parse_link_spec url := by
  simp only [parse_telegram_url, parse_link_spec, matchURL]
  rw [host_align (stripScheme url.data)]
  cases hS : (match tryStrip "telegram.me".data (stripScheme url.data) with
              | some r => some r
              | none => tryStrip "t.me".data (stripScheme url.data)).bind
      (tryStrip "/c/".data) with
  | none => rfl
  | some cs2 =>
      dsimp only
      cases h2 : twoDigitGroups cs2 with
      | none => rfl
      | some pair =>
          obtain ⟨g1, g2⟩ := pair
          obtain ⟨-, -, hg2ne, hg2dig⟩ := twoDigitGroups_eq_some h2
          dsimp only
          rw [pyInt_digits g2 hg2ne hg2dig, digitsVal_cast g2 hg2dig]
          cases hpe : parse_entity (String.mk g1) with
          | ok e => rfl
          | error msg => rfl

theorem collectLoop_dates (resolve : Int → Option Int)
    (stream : List PyMessage) (limit : Nat) (sd : Int) :
    ∀ msg ∈ collectLoop resolve stream limit sd,
      ∀ d, msg.date = some d → sd ≤ d := by
  induction stream generalizing limit with
  | nil => simp [collectLoop]
  | cons m rest ih =>
      cases hd : m.date with
      | none =>
          simpa [collectLoop, hd] using ih limit
      | some d =>
          by_cases hlt : d < sd
          · simp [collectLoop, hd, hlt]
          · cases limit with
            | zero => simp [collectLoop, hd, hlt]
            | succ k =>
                simp only [collectLoop, hd, if_neg hlt]
                intro msg hmsg d' hd'
                rcases List.mem_cons.mp hmsg with hhead | htail
                · subst hhead
                  have : m.date = some d' := hd'
                  rw [hd] at this
                  have := Option.some.inj this
                  omega
                · exact ih k msg htail d' hd'

theorem collectLoop_length (resolve : Int → Option Int)
    (stream : List PyMessage) (limit : Nat) (sd : Int) :
    (collectLoop resolve stream limit sd).length ≤ limit := by
  induction stream generalizing limit with
  | nil => simp [collectLoop]
  | cons m rest ih =>
      cases hd : m.date with
      | none => simpa [collectLoop, hd] using ih limit
      | some d =>
          by_cases hlt : d < sd
          · simp [collectLoop, hd, hlt]
          · cases limit with
            | zero => simp [collectLoop, hd, hlt]
            | succ k =>
                simp only [collectLoop, hd, if_neg hlt, List.length_cons]
                exact Nat.succ_le_succ (ih k)

theorem collectLoop_stop (resolve : Int → Option Int)
    (pre : List PyMessage) (m : PyMessage) (post : List PyMessage)
    (limit : Nat) (sd d : Int) (hd : m.date = some d) (hlt : d < sd) :
    collectLoop resolve (pre ++ m :: post) limit sd =
      collectLoop resolve pre limit sd := by
  induction pre generalizing limit with
  | nil => simp [collectLoop, hd, hlt]
  | cons p pre' ih =>
      cases hp : p.date with
      | none => simp only [List.cons_append, collectLoop, hp]; exact ih limit
      | some dp =>
          by_cases hplt : dp < sd
          · simp [collectLoop, hp, hplt]
          · cases limit with
            | zero => simp [collectLoop, hp, hplt]
            | succ k =>
                simp only [List.cons_append, collectLoop, hp, if_neg hplt]
                exact congrArg (List.cons (toMessage resolve p)) (ih k)

theorem collectLoop_boundary (resolve : Int → Option Int) (m : PyMessage)
    (post : List PyMessage) (k : Nat) (sd : Int) (hd : m.date = some sd) :
    collectLoop resolve (m :: post) (k + 1) sd =
      toMessage resolve m :: collectLoop resolve post k sd := by
  simp [collectLoop, hd]

theorem pyFieldMatch_eq_spec (q : String) (hq : q ≠ "") (f : Option String) :
    pyFieldMatch (pyLower q) f = contactFieldHas q f := by
  cases f with
  | none => rfl
  | some s =>
      by_cases hs : s = ""
      · subst hs
        have hqd : (pyLower q).data ≠ [] := by
          simp only [pyLower]
          intro hcon
          apply hq
          have : q.data = [] := by simpa using hcon
          cases hqs : q with
          | mk l => rw [hqs] at this; simp at this; simp [hqs, this]
        simp [pyFieldMatch, contactFieldHas, pyIn, pyLower, substrL]
        intro hcon
        exact absurd (by simp [pyLower, hcon]) hqd
      · simp [pyFieldMatch, contactFieldHas, hs]

/-! ## Claim theorems -/

/-- Claim C1: the claim states that `parse_entity` is total and never
raises, returning every non-numeric string unchanged. The code violates
this: on `"--123"`, `lstrip("-")` removes both minus signs, the remainder
`"123"` passes `isdigit()`, and `int("--123")` raises `ValueError`
instead of returning the string unchanged, contradicting the function's
own docstring. This theorem evaluates the embedding at that failing
input. -/
theorem parse_entity_double_minus_raises :
    parse_entity "--123" = Except.error "ValueError" := rfl

/-- Claim C2: the claim states that every `send_message` tool invocation
returns a string (confirmation or error). In the code, the tool calls
`tg.send_message(_entity, message, file_path=..., reply_to=...)`, but
`Telegram.send_message(self, entity, message)` accepts neither keyword,
so every invocation raises `TypeError` before any send is attempted; the
tool body also has no `try/except`, so no error string is ever produced.
This theorem shows the call does not bind against the callee's
parameters. -/
theorem send_message_tool_call_raises_TypeError :
    pyCallBinds Telegram_send_message_params 2 server_send_message_keywords
      = false := rfl

/-- Claim C3: dialog classification. An individual-account peer with the
bot flag is classified `bot`, without it `user`; a basic-group peer is
`group`; a broadcast-capable peer with the megagroup flag is `group`;
every remaining broadcast peer is `channel`. -/
theorem dialog_classification_cases (i : Int) (t : String) (uc : Nat)
    (un ph : Option String) :
    (Dialog.from_custom_dialog ⟨i, t, uc, .user true un ph⟩).type
        = DialogType.BOT ∧
    (Dialog.from_custom_dialog ⟨i, t, uc, .user false un ph⟩).type
        = DialogType.USER ∧
    (Dialog.from_custom_dialog ⟨i, t, uc, .chat⟩).type
        = DialogType.GROUP ∧
    (Dialog.from_custom_dialog ⟨i, t, uc, .channel true un⟩).type
        = DialogType.GROUP ∧
    (Dialog.from_custom_dialog ⟨i, t, uc, .channel false un⟩).type
        = DialogType.CHANNEL :=
  ⟨rfl, rfl, rfl, rfl, rfl⟩

/-- Claim C4: unread-window retrieval. With the unread flag set, an
unresolved dialog or a zero unread count yields an empty batch with no
message fetch performed; otherwise the effective fetch limit is
`min(requested_limit, unread_messages_count)`. -/
theorem get_messages_unread_window (resolve : Int → Option Int)
    (dlg : Dialog) (stream : List PyMessage) (limit : Nat) (sd : Int) :
    (Telegram.get_messages resolve none stream limit sd true
        = ({ messages := [], dialog := none }, false)) ∧
    (dlg.unread_messages_count = 0 →
      Telegram.get_messages resolve (some dlg) stream limit sd true
        = ({ messages := [], dialog := some dlg }, false)) ∧
    (dlg.unread_messages_count ≠ 0 →
      Telegram.get_messages resolve (some dlg) stream limit sd true
        = ({ messages := collectLoop resolve stream
               (min limit dlg.unread_messages_count) sd,
             dialog := some dlg }, true)) := by
  refine ⟨rfl, fun h => ?_, fun h => ?_⟩
  · simp [Telegram.get_messages, h]
  · simp [Telegram.get_messages, h]

/-- Witness for C4 at the spec's own example: an unread count of `0`
yields an empty batch without a fetch, and an unread count of `3` against
a requested limit of `10` fetches with effective limit `min 10 3 = 3`. -/
theorem get_messages_unread_window_witness :
    Telegram.get_messages (fun _ => none)
        (some ⟨1, "d", none, none, DialogType.USER, 0⟩) [] 10 0 true
      = ({ messages := [],
           dialog := some ⟨1, "d", none, none, DialogType.USER, 0⟩ },
         false) ∧
    Telegram.get_messages (fun _ => none)
        (some ⟨1, "d", none, none, DialogType.USER, 3⟩) [] 10 0 true
      = ({ messages := collectLoop (fun _ => none) [] (min 10 3) 0,
           dialog := some ⟨1, "d", none, none, DialogType.USER, 3⟩ },
         true) ∧
    min 10 3 = 3 :=
  ⟨(get_messages_unread_window (fun _ => none)
      ⟨1, "d", none, none, DialogType.USER, 0⟩ [] 10 0).2.1 rfl,
   (get_messages_unread_window (fun _ => none)
      ⟨1, "d", none, none, DialogType.USER, 3⟩ [] 10 0).2.2 (by decide),
   rfl⟩

/-- Claim C5: date-windowed retrieval. The non-unread path collects via
the message-loop; no collected message is dated strictly before
`start_date`; at most `limit` messages are collected; the loop stops at
the first message strictly older than `start_date`, ignoring everything
after it; and a message dated exactly `start_date` is included when the
limit is not yet reached. -/
theorem get_messages_date_window (resolve : Int → Option Int)
    (stream : List PyMessage) (limit : Nat) (sd : Int) :
    (∀ dialog, (Telegram.get_messages resolve dialog stream limit sd
        false).fst.messages = collectLoop resolve stream limit sd) ∧
    (∀ msg ∈ collectLoop resolve stream limit sd,
      ∀ d, msg.date = some d → sd ≤ d) ∧
    ((collectLoop resolve stream limit sd).length ≤ limit) ∧
    (∀ (pre post : List PyMessage) (m : PyMessage) (d : Int),
      m.date = some d → d < sd →
      collectLoop resolve (pre ++ m :: post) limit sd
        = collectLoop resolve pre limit sd) ∧
    (∀ (m : PyMessage) (post : List PyMessage) (k : Nat),
      m.date = some sd →
      collectLoop resolve (m :: post) (k + 1) sd
        = toMessage resolve m :: collectLoop resolve post k sd) :=
  ⟨fun _ => rfl,
   collectLoop_dates resolve stream limit sd,
   collectLoop_length resolve stream limit sd,
   fun pre post m d hd hlt => collectLoop_stop resolve pre m post limit sd d hd hlt,
   fun m post k hd => collectLoop_boundary resolve m post k sd hd⟩

/-- Witness for C5 at the spec's own example (dates `9`, `0`, `-2`
against `start_date = 0`): iteration stops at the message dated `-2`, and
a message dated exactly `start_date` is included. -/
theorem get_messages_date_window_witness :
    collectLoop (fun _ => none)
        ([⟨1, some 9, none, none, false, false, none, none, none⟩] ++
          ⟨3, some (-2), none, none, false, false, none, none, none⟩ :: [])
        10 0
      = collectLoop (fun _ => none)
          [⟨1, some 9, none, none, false, false, none, none, none⟩] 10 0 ∧
    collectLoop (fun _ => none)
        (⟨2, some 0, none, none, false, false, none, none, none⟩ ::
          [⟨3, some (-2), none, none, false, false, none, none, none⟩]) (5 + 1) 0
      = toMessage (fun _ => none)
          ⟨2, some 0, none, none, false, false, none, none, none⟩ ::
        collectLoop (fun _ => none)
          [⟨3, some (-2), none, none, false, false, none, none, none⟩] 5 0 :=
  ⟨(get_messages_date_window (fun _ => none) [] 10 0).2.2.2.1
      [⟨1, some 9, none, none, false, false, none, none, none⟩] []
      ⟨3, some (-2), none, none, false, false, none, none, none⟩ (-2)
      rfl (by decide),
   (get_messages_date_window (fun _ => none) [] 6 0).2.2.2.2
      ⟨2, some 0, none, none, false, false, none, none, none⟩
      [⟨3, some (-2), none, none, false, false, none, none, none⟩] 5 rfl⟩

/-- Counterexample to claim C6 as stated: a megagroup (broadcast-capable
peer with the megagroup flag) is classified `group`, yet its username is
populated, so a Dialog classified as group can carry a username. -/
theorem megagroup_dialog_username_counterexample :
    (Dialog.from_custom_dialog
        ⟨1, "g", 0, TLEntity.channel true (some "grp")⟩).type
      = DialogType.GROUP ∧
    (Dialog.from_custom_dialog
        ⟨1, "g", 0, TLEntity.channel true (some "grp")⟩).username
      = some "grp" :=
  ⟨rfl, rfl⟩

/-- Claim C6 as amended: the username field is populated exactly from the
entity's username when the peer is an individual account or any
broadcast-capable (Channel-typed) peer — including megagroups classified
as `group` — and is absent for basic groups; the phone_number field is
populated exactly from the entity's phone for individual accounts and is
absent otherwise. -/
theorem dialog_username_phone_fields (i : Int) (t : String) (uc : Nat)
    (b mg : Bool) (un ph : Option String) :
    (Dialog.from_custom_dialog ⟨i, t, uc, .chat⟩).username = none ∧
    (Dialog.from_custom_dialog ⟨i, t, uc, .chat⟩).phone_number = none ∧
    (Dialog.from_custom_dialog ⟨i, t, uc, .channel mg un⟩).phone_number
      = none ∧
    (Dialog.from_custom_dialog ⟨i, t, uc, .user b un ph⟩).username = un ∧
    (Dialog.from_custom_dialog ⟨i, t, uc, .channel mg un⟩).username = un ∧
    (Dialog.from_custom_dialog ⟨i, t, uc, .user b un ph⟩).phone_number
      = ph :=
  ⟨rfl, rfl, rfl, rfl, rfl, rfl⟩

/-- Claim C7: the claim states that every `search_dialogs` tool call
returns at most `limit` dialogs. In the code, the tool calls
`tg.search_dialogs(query, limit)` with two positional arguments, but
`Telegram.search_dialogs(self, query)` accepts only one, so every
invocation raises `TypeError`; the wrapper also applies no truncation.
This theorem shows the call does not bind against the callee's
parameters. -/
theorem search_dialogs_tool_call_raises_TypeError :
    pyCallBinds Telegram_search_dialogs_params
      server_search_dialogs_numPositional [] = false := rfl

/-- Counterexample to claim C8 as stated: the claim allows only an
optional `https://` scheme, so `http://t.me/c/1/2` should be "not
recognized"; the regex `(?:https?://)?` accepts the `http://` scheme as
well, and the parser returns a result. -/
theorem parse_telegram_url_http_counterexample :
    parse_telegram_url "http://t.me/c/1/2" = some (Sum.inl 1, 2) ∧
    parse_telegram_url "http://t.me/c/1/2" ≠ none := by
  refine ⟨rfl, fun h => ?_⟩
  rw [show parse_telegram_url "http://t.me/c/1/2" = some (Sum.inl 1, 2)
    from rfl] at h
  exact Option.noConfusion h

/-- Claim C8 as amended: the deep-link parser recognizes exactly the
private-channel form `t.me/c/<channel_id>/<message_id>` with an optional
`https://` or `http://` scheme and an optional `telegram.me` host,
returning the channel id through the entity resolver and the message id
as a non-negative integer, and yields `none` on every other shape
(including malformed numeric segments) instead of raising. This is
stated as extensional equality with `parse_link_spec`, the definition
written from the amended specification, together with the
specification's own test vectors. -/
theorem parse_telegram_url_matches_spec :
    (∀ url, parse_telegram_url url = parse_link_spec url) ∧
    parse_telegram_url "t.me/c/1234567890/55"
      = some (Sum.inl 1234567890, 55) ∧
    parse_telegram_url "https://telegram.me/c/42/7"
      = some (Sum.inl 42, 7) ∧
    parse_telegram_url "https://t.me/somejoke/1" = none ∧
    parse_telegram_url "t.me/c/abc/1" = none ∧
    parse_telegram_url "http://t.me/c/1/2" = some (Sum.inl 1, 2) :=
  ⟨parse_url_refines, rfl, rfl, rfl, rfl, rfl⟩

/-- Claim C9: contact search filtering. An absent or empty query returns
the full contact set unfiltered; a non-empty query returns exactly the
contacts with at least one present field containing the query
case-insensitively, per the spec-side predicate `contactMatchesSpec`. -/
theorem search_contacts_filtering (users : List PyUser) (q : String) :
    (Telegram.search_contacts users none = users.map Contact.ofUser) ∧
    (Telegram.search_contacts users (some "") = users.map Contact.ofUser) ∧
    (q ≠ "" → Telegram.search_contacts users (some q)
      = (users.filter (contactMatchesSpec q)).map Contact.ofUser) := by
  refine ⟨rfl, rfl, fun hq => ?_⟩
  simp only [Telegram.search_contacts, if_neg hq]
  congr 1
  apply List.filter_congr
  intro u _
  simp only [contactMatchesSpec]
  rw [pyFieldMatch_eq_spec q hq u.first_name,
    pyFieldMatch_eq_spec q hq u.last_name,
    pyFieldMatch_eq_spec q hq u.username,
    pyFieldMatch_eq_spec q hq u.phone]

/-- Witness for C9 at the spec's own example: the query `"ALICE"`
matches the contact with first name `"alice smith"` case-insensitively
and nobody else. -/
theorem search_contacts_filtering_witness :
    Telegram.search_contacts
        [⟨1, some "alice smith", none, none, none⟩,
         ⟨2, some "bob", none, none, none⟩] (some "ALICE")
      = ([(⟨1, some "alice smith", none, none, none⟩ : PyUser),
          ⟨2, some "bob", none, none, none⟩].filter
            (contactMatchesSpec "ALICE")).map Contact.ofUser ∧
    ([(⟨1, some "alice smith", none, none, none⟩ : PyUser),
      ⟨2, some "bob", none, none, none⟩].filter
        (contactMatchesSpec "ALICE")).map Contact.ofUser
      = [Contact.ofUser ⟨1, some "alice smith", none, none, none⟩] :=
  ⟨(search_contacts_filtering
      [⟨1, some "alice smith", none, none, none⟩,
       ⟨2, some "bob", none, none, none⟩] "ALICE").2.2 (by decide),
   rfl⟩

/-- Counterexample to claim C10 as stated: for the well-formed prefix
`t.me/c/12/34` followed by the extra character `"5"`, the claim demands
the result `(12, 34)`, but the greedy digit capture extends the message
id across the extra digit and the parser returns `(12, 345)`. -/
theorem parse_telegram_url_digit_suffix_extends :
    parse_telegram_url ("t.me/c/12/34" ++ "5") = some (Sum.inl 12, 345) ∧
    (some (Sum.inl 12, 345) : Option ((Int ⊕ String) × Int))
      ≠ some (Sum.inl 12, 34) := by
  refine ⟨rfl, fun h => ?_⟩
  have := Option.some.inj h
  have h2 : (345 : Int) = 34 := congrArg Prod.snd this
  exact absurd h2 (by decide)

/-- Claim C10 as amended: the regex match is anchored at the start of the
input only, so a string beginning with a well-formed
`t.me/c/<digits>/<digits>` prefix parses to that prefix's channel and
message ids whatever characters follow — provided the extra characters do
not begin with a digit (a leading extra digit is absorbed into the greedy
message-id capture instead). -/
theorem parse_telegram_url_prefix_anchored (d1 d2 rest : List Char)
    (h1ne : d1 ≠ []) (h1 : ∀ c ∈ d1, c.isDigit = true)
    (h2ne : d2 ≠ []) (h2 : ∀ c ∈ d2, c.isDigit = true)
    (hrest : ∀ c, rest.head? = some c → c.isDigit = false) :
    parse_telegram_url
        (String.mk ("t.me/c/".data ++ (d1 ++ '/' :: (d2 ++ rest))))
      = some (Sum.inl (digitsVal d1), digitsVal d2) := by
  have hscheme : stripScheme ("t.me/c/".data ++ (d1 ++ '/' :: (d2 ++ rest)))
      = "t.me/c/".data ++ (d1 ++ '/' :: (d2 ++ rest)) := by
    simp [stripScheme, tryStrip]
  have htel : tryStrip "telegram.me/c/".data
      ("t.me/c/".data ++ (d1 ++ '/' :: (d2 ++ rest))) = none := by
    simp [tryStrip]
  have htme : tryStrip "t.me/c/".data
      ("t.me/c/".data ++ (d1 ++ '/' :: (d2 ++ rest)))
      = some (d1 ++ '/' :: (d2 ++ rest)) :=
    tryStrip_self_append _ _
  have htake2 : (d2 ++ rest).takeWhile Char.isDigit = d2 := by
    cases hr : rest with
    | nil =>
        rw [List.append_nil]
        exact List.takeWhile_eq_self_iff.mpr h2
    | cons r rs =>
        exact takeWhile_all_append _ d2 r rs h2 (hrest r (by rw [hr]; rfl))
  have hg : twoDigitGroups (d1 ++ '/' :: (d2 ++ rest)) = some (d1, d2) := by
    have htake1 : (d1 ++ '/' :: (d2 ++ rest)).takeWhile Char.isDigit = d1 :=
      takeWhile_all_append _ d1 '/' _ h1 (by decide)
    have hdrop1 : (d1 ++ '/' :: (d2 ++ rest)).dropWhile Char.isDigit
        = '/' :: (d2 ++ rest) :=
      dropWhile_all_append _ d1 '/' _ h1 (by decide)
    simp only [twoDigitGroups, htake1, hdrop1]
    rw [if_neg (by simpa [List.isEmpty_iff] using h1ne)]
    rw [if_pos trivial, htake2,
      if_neg (by simpa [List.isEmpty_iff] using h2ne)]
  have hdata : (String.mk ("t.me/c/".data ++ (d1 ++ '/' :: (d2 ++ rest)))).data
      = "t.me/c/".data ++ (d1 ++ '/' :: (d2 ++ rest)) := rfl
  unfold parse_telegram_url matchURL
  rw [hdata, hscheme, htel]
  dsimp only
  rw [htme]
  dsimp only
  rw [hg]
  dsimp only
  rw [parse_entity_digits d1 h1ne h1, pyInt_digits d2 h2ne h2]

/-- Witness for C10 at the concrete link `t.me/c/12/34/extra`: the
trailing `/extra` is ignored and the parse yields `(12, 34)`. -/
theorem parse_telegram_url_prefix_anchored_witness :
    parse_telegram_url "t.me/c/12/34/extra" = some (Sum.inl 12, 34) := by
  have h := parse_telegram_url_prefix_anchored ['1', '2'] ['3', '4']
    "/extra".data (by decide) (by decide) (by decide) (by decide)
    (by intro c hc; cases hc; decide)
  exact h
